import Mathlib

/-!
Verification development for the PinkSync accessibility event broker
(`src/api/main.py` together with the pydantic models in
`src/api/models/broker.py`).  The broker keeps four in-memory stores
(`events_store`, `capabilities_store`, `subscriptions_store`,
`compliance_store`) and exposes the four v1 endpoints
`accept_event`, `list_capabilities`, `create_subscription` and
`get_compliance`.  Everything below is a direct shallow embedding of that
code: Python dicts become association lists, `datetime`/`uuid` values are
threaded in as explicit string parameters (they are produced by external
nondeterministic sources), and HTTP failures become `Except Nat` with the
status code as the error value.
-/

namespace PinkSync

/-! ## SHA-256 (the broker signs events with `hashlib.sha256(...).hexdigest()`) -/

/-- Reduction modulo `2 ^ 32`, the word size of SHA-256. -/
def mod32 (n : Nat) : Nat := n % 4294967296

/-- Right rotation of a 32-bit word by `n` places. -/
def rotr (n x : Nat) : Nat := mod32 ((x >>> n) ||| (x <<< (32 - n)))

/-- SHA-256 big sigma 0. -/
def sumA (x : Nat) : Nat := (rotr 2 x) ^^^ (rotr 13 x) ^^^ (rotr 22 x)

/-- SHA-256 big sigma 1. -/
def sumE (x : Nat) : Nat := (rotr 6 x) ^^^ (rotr 11 x) ^^^ (rotr 25 x)

/-- SHA-256 small sigma 0. -/
def sigLow (x : Nat) : Nat := (rotr 7 x) ^^^ (rotr 18 x) ^^^ (x >>> 3)

/-- SHA-256 small sigma 1. -/
def sigHigh (x : Nat) : Nat := (rotr 17 x) ^^^ (rotr 19 x) ^^^ (x >>> 10)

/-- SHA-256 choose function (the complement is taken by xor with the 32-bit mask). -/
def choose (x y z : Nat) : Nat := (x &&& y) ^^^ ((x ^^^ 4294967295) &&& z)

/-- SHA-256 majority function. -/
def majority (x y z : Nat) : Nat := (x &&& y) ^^^ (x &&& z) ^^^ (y &&& z)

/-- The 64 SHA-256 round constants (decimal, FIPS 180-4 section 4.2.2). -/
def sha256K : List Nat :=
  [1116352408, 1899447441, 3049323471, 3921009573, 961987163, 1508970993,
   2453635748, 2870763221, 3624381080, 310598401, 607225278, 1426881987,
   1925078388, 2162078206, 2614888103, 3248222580, 3835390401, 4022224774,
   264347078, 604807628, 770255983, 1249150122, 1555081692, 1996064986,
   2554220882, 2821834349, 2952996808, 3210313671, 3336571891, 3584528711,
   113926993, 338241895, 666307205, 773529912, 1294757372, 1396182291,
   1695183700, 1986661051, 2177026350, 2456956037, 2730485921, 2820302411,
   3259730800, 3345764771, 3516065817, 3600352804, 4094571909, 275423344,
   430227734, 506948616, 659060556, 883997877, 958139571, 1322822218,
   1537002063, 1747873779, 1955562222, 2024104815, 2227730452, 2361852424,
   2428436474, 2756734187, 3204031479, 3329325298]

/-- The SHA-256 initial hash value (decimal, FIPS 180-4 section 5.3.3). -/
def sha256H0 : List Nat :=
  [1779033703, 3144134277, 1013904242, 2773480762,
   1359893119, 2600822924, 528734635, 1541459225]

/-- Big-endian 8-byte encoding of the bit length appended by SHA-256 padding. -/
def lenBytes (bits : Nat) : List Nat :=
  [(bits >>> 56) % 256, (bits >>> 48) % 256, (bits >>> 40) % 256, (bits >>> 32) % 256,
   (bits >>> 24) % 256, (bits >>> 16) % 256, (bits >>> 8) % 256, bits % 256]

/-- SHA-256 padding: append `0x80`, zero bytes up to 56 mod 64, then the bit length. -/
def sha256Pad (msg : List Nat) : List Nat :=
  msg ++ [0x80] ++ List.replicate ((119 - msg.length % 64) % 64) 0 ++ lenBytes (8 * msg.length)

/-- Group a byte list into big-endian 32-bit words. -/
def toWords : List Nat → List Nat
  | b0 :: b1 :: b2 :: b3 :: rest => (((b0 * 256 + b1) * 256 + b2) * 256 + b3) :: toWords rest
  | _ => []

/-- Fuelled helper splitting a word list into chunks of 16. -/
def chunks16Go : Nat → List Nat → List (List Nat)
  | 0, _ => []
  | _, [] => []
  | fuel + 1, ws => ws.take 16 :: chunks16Go fuel (ws.drop 16)

/-- Split a word list into 16-word blocks. -/
def chunks16 (ws : List Nat) : List (List Nat) := chunks16Go ws.length ws

/-- Extend a 16-word block by `n` further words of the SHA-256 message schedule. -/
def extendW : Nat → List Nat → List Nat
  | 0, ws => ws
  | n + 1, ws =>
    let t := ws.length
    let w := mod32 (sigHigh (ws.getD (t - 2) 0) + ws.getD (t - 7) 0 +
                    sigLow (ws.getD (t - 15) 0) + ws.getD (t - 16) 0)
    extendW n (ws ++ [w])

/-- One SHA-256 round on the eight-word working state. -/
def sha256Round (st : List Nat) (kw : Nat × Nat) : List Nat :=
  match st with
  | [a, b, c, d, e, f, g, h] =>
    let t1 := mod32 (h + sumE e + choose e f g + kw.1 + kw.2)
    let t2 := mod32 (sumA a + majority a b c)
    [mod32 (t1 + t2), a, b, c, mod32 (d + t1), e, f, g]
  | _ => st

/-- Compress one 16-word block into the running hash value. -/
def sha256Compress (h : List Nat) (block : List Nat) : List Nat :=
  let st := ((sha256K.zip (extendW 48 block)).foldl sha256Round h)
  (h.zip st).map (fun p => mod32 (p.1 + p.2))

/-- SHA-256 of a byte list, as eight 32-bit words. -/
def sha256Words (msg : List Nat) : List Nat :=
  (chunks16 (toWords (sha256Pad msg))).foldl sha256Compress sha256H0

/-- Lower-case hex digit, as produced by Python's `hexdigest`. -/
def hexDigit (n : Nat) : Char := if n < 10 then Char.ofNat (48 + n) else Char.ofNat (87 + n)

/-- The eight hex digits of one 32-bit word. -/
def wordHexChars (w : Nat) : List Char :=
  [hexDigit ((w >>> 28) % 16), hexDigit ((w >>> 24) % 16), hexDigit ((w >>> 20) % 16),
   hexDigit ((w >>> 16) % 16), hexDigit ((w >>> 12) % 16), hexDigit ((w >>> 8) % 16),
   hexDigit ((w >>> 4) % 16), hexDigit (w % 16)]

/-- UTF-8 encoding of one character (Python's `str.encode()`). -/
def utf8Bytes (c : Char) : List Nat :=
  let n := c.toNat
  if n < 128 then [n]
  else if n < 2048 then [192 + n / 64, 128 + n % 64]
  else if n < 65536 then [224 + n / 4096, 128 + (n / 64) % 64, 128 + n % 64]
  else [240 + n / 262144, 128 + (n / 4096) % 64, 128 + (n / 64) % 64, 128 + n % 64]

/-- UTF-8 bytes of a string. -/
def strBytes (s : String) : List Nat := (s.data.map utf8Bytes).flatten

/-- `hashlib.sha256(s.encode()).hexdigest()` as used by the broker. -/
def sha256Hex (s : String) : String :=
  String.mk ((sha256Words (strBytes s)).foldr (fun w acc => wordHexChars w ++ acc) [])

/-! ## Data model (`src/api/models/broker.py`) -/

/-- The eight admissible values of `AccessibilityEvent.intent` (a `Literal` in the source). -/
def intentValues : List String :=
  ["visual_only", "sign_language", "reduced_motion", "high_contrast",
   "captions_mandatory", "no_audio_cues", "visual_alerts", "text_primary"]

/-- The four admissible compliance levels (`bronze`/`silver`/`gold`/`platinum`). -/
def complianceLevelValues : List String := ["bronze", "silver", "gold", "platinum"]

/-- One character of the `^[a-zA-Z0-9_-]+$` pattern used for `app_id`/`user_id`. -/
def isIdentChar (c : Char) : Bool :=
  (('a' ≤ c && c ≤ 'z') || ('A' ≤ c && c ≤ 'Z') || ('0' ≤ c && c ≤ '9') || c = '_' || c = '-')

/-- Full-string match of `^[a-zA-Z0-9_-]+$`. -/
def matchesIdent (s : String) : Bool := s.length ≥ 1 && s.data.all isIdentChar

/-- An accessibility event as posted to `/v1/events`; `metadata` is an opaque
key/value bag never interpreted by the broker. -/
structure AccessibilityEvent where
  app_id : String
  user_id : Option String
  intent : String
  timestamp : String
  metadata : List (String × String)
  compliance_level : Option String
deriving DecidableEq, Repr

/-- The pydantic field validation of `AccessibilityEvent`: `app_id` charset and
length 3..64, optional `user_id` charset and length up to 128, `intent` in the
closed enumeration, optional `compliance_level` in the closed enumeration. -/
def validEvent (e : AccessibilityEvent) : Bool :=
  (matchesIdent e.app_id && 3 ≤ e.app_id.length && e.app_id.length ≤ 64) &&
  (match e.user_id with
   | none => true
   | some u => matchesIdent u && u.length ≤ 128) &&
  intentValues.contains e.intent &&
  (match e.compliance_level with
   | none => true
   | some l => complianceLevelValues.contains l)

/-- A record of `events_store`: the event payload plus broker-assigned id,
processing time and signature. -/
structure EventRecord where
  event_id : String
  event : AccessibilityEvent
  processed_at : String
  signature : String
deriving DecidableEq, Repr

/-- The response body of `POST /v1/events`. -/
structure EventResponse where
  event_id : String
  status : String
  timestamp : String
  signature : String
  ledger_id : Option String
deriving DecidableEq, Repr

/-- An entry of `compliance_store` (one per `app_id`). -/
structure Violation where
  type : String
  severity : String
  timestamp : String
  description : Option String
deriving DecidableEq, Repr

/-- The per-application compliance tracking record held in `compliance_store`. -/
structure ComplianceEntry where
  events_count : Nat
  violations : List Violation
  last_event : Option String
deriving DecidableEq, Repr

/-- A capability declaration held in `capabilities_store` (`AppCapability`). -/
structure AppCapability where
  app_id : String
  capabilities : List String
  compliance_level : String
  version : String
  registered_at : Option String
deriving DecidableEq, Repr

/-- The response body of `GET /v1/capabilities`. -/
structure CapabilitiesResponse where
  capabilities : List AppCapability
  total : Nat
deriving DecidableEq, Repr

/-- The optional conjunctive filter of a subscription. -/
structure SubscriptionFilter where
  app_ids : Option (List String)
  intents : Option (List String)
  compliance_levels : Option (List String)
deriving DecidableEq, Repr

/-- The body of `POST /v1/subscribe`. -/
structure SubscriptionRequest where
  consumer_id : String
  event_types : List String
  webhook_url : Option String
  filter : Option SubscriptionFilter
deriving DecidableEq, Repr

/-- A record of `subscriptions_store`. -/
structure SubscriptionRecord where
  subscription_id : String
  subscription : SubscriptionRequest
  created_at : String
  status : String
deriving DecidableEq, Repr

/-- The response body of `POST /v1/subscribe`. -/
structure SubscriptionResponse where
  subscription_id : String
  status : String
  created_at : String
  expires_at : Option String
deriving DecidableEq, Repr

/-- A violation as rendered in a compliance report (`ComplianceViolation`). -/
structure ComplianceViolation where
  type : String
  severity : String
  timestamp : String
  description : Option String
deriving DecidableEq, Repr

/-- The response body of `GET /v1/compliance/(app_id)`. -/
structure ComplianceReport where
  app_id : String
  compliance_level : String
  status : String
  last_audit : Option String
  events_count : Nat
  violations : List ComplianceViolation
  certificate_url : Option String
deriving DecidableEq, Repr

/-- The whole in-memory state of the broker module: the four module-level
stores of `src/api/main.py`.  The Python dict `compliance_store` is modelled
as an association list with Python's insertion semantics. -/
structure BrokerState where
  events_store : List EventRecord
  capabilities_store : List AppCapability
  subscriptions_store : List SubscriptionRecord
  compliance_store : List (String × ComplianceEntry)
deriving DecidableEq, Repr

/-- The state at module load: all four stores empty. -/
def initialState : BrokerState :=
  { events_store := [], capabilities_store := [], subscriptions_store := [], compliance_store := [] }

/-- Dict lookup (`d[k]` / `k in d`). -/
def dictLookup (d : List (String × ComplianceEntry)) (k : String) : Option ComplianceEntry :=
  match d with
  | [] => none
  | (k', v) :: rest => if k' = k then some v else dictLookup rest k

/-- Dict update `d[k] = v`: replaces in place, or appends a fresh key at the end. -/
def dictInsert (d : List (String × ComplianceEntry)) (k : String) (v : ComplianceEntry) :
    List (String × ComplianceEntry) :=
  match d with
  | [] => [(k, v)]
  | (k', v') :: rest => if k' = k then (k, v) :: rest else (k', v') :: dictInsert rest k v

/-! ## Broker operations (`src/api/main.py`) -/

/-- The signature of an accepted event: SHA-256 hex digest of
`event_id:app_id:intent:timestamp` (main.py lines 184-186). -/
def sign (event_id app_id intent timestamp : String) : String :=
  sha256Hex (event_id ++ ":" ++ app_id ++ ":" ++ intent ++ ":" ++ timestamp)

/-- The record `accept_event` appends to `events_store`. -/
def mkEventRecord (e : AccessibilityEvent) (event_id now : String) : EventRecord :=
  { event_id := event_id, event := e, processed_at := now,
    signature := sign event_id e.app_id e.intent e.timestamp }

/-- `POST /v1/events` handler body (main.py lines 168-215).  `event_id` is the
freshly generated `uuid.uuid4()` and `now` the `datetime.utcnow()` reading,
both supplied by external nondeterministic sources and threaded in here. -/
def accept_event (s : BrokerState) (e : AccessibilityEvent) (event_id now : String) :
    BrokerState × EventResponse :=
  let signature := sign event_id e.app_id e.intent e.timestamp
  let events' := s.events_store ++ [mkEventRecord e event_id now]
  let entry :=
    match dictLookup s.compliance_store e.app_id with
    | none => { events_count := 0, violations := [], last_event := none : ComplianceEntry }
    | some c => c
  let entry' := { entry with events_count := entry.events_count + 1, last_event := some now }
  ({ s with events_store := events',
            compliance_store := dictInsert s.compliance_store e.app_id entry' },
   { event_id := event_id, status := "accepted", timestamp := now,
     signature := signature, ledger_id := none })

/-- The full `POST /v1/events` endpoint: pydantic validates the request body
before the handler runs, so an invalid event is rejected (HTTP 422) with the
state untouched. -/
def submit_event (s : BrokerState) (e : AccessibilityEvent) (event_id now : String) :
    BrokerState × Except Nat EventResponse :=
  if validEvent e then
    let r := accept_event s e event_id now
    (r.1, Except.ok r.2)
  else
    (s, Except.error 422)

/-- Python truthiness of an optional query string: `None` and `""` are falsy. -/
def truthy : Option String → Bool
  | none => false
  | some s => s ≠ ""

/-- `GET /v1/capabilities` handler (main.py lines 218-244): three sequential
truthiness-guarded filters over `capabilities_store`. -/
def list_capabilities (s : BrokerState) (app_id compliance_level intent : Option String) :
    CapabilitiesResponse :=
  let f0 := s.capabilities_store
  let f1 := if truthy app_id then f0.filter (fun c => c.app_id = app_id.getD "") else f0
  let f2 := if truthy compliance_level then
              f1.filter (fun c => c.compliance_level = compliance_level.getD "") else f1
  let f3 := if truthy intent then
              f2.filter (fun c => c.capabilities.contains (intent.getD "")) else f2
  { capabilities := f3, total := f3.length }

/-- `POST /v1/subscribe` handler (main.py lines 247-284).  `subscription_id`
is the generated `uuid.uuid4()` and `now` the `datetime.utcnow()` reading. -/
def create_subscription (s : BrokerState) (sub : SubscriptionRequest)
    (subscription_id now : String) : BrokerState × Except Nat SubscriptionResponse :=
  let existing := s.subscriptions_store.filter
    (fun r => r.subscription.consumer_id = sub.consumer_id)
  if existing.isEmpty then
    let record : SubscriptionRecord :=
      { subscription_id := subscription_id, subscription := sub,
        created_at := now, status := "active" }
    ({ s with subscriptions_store := s.subscriptions_store ++ [record] },
     Except.ok { subscription_id := subscription_id, status := "active",
                 created_at := now, expires_at := none })
  else
    (s, Except.error 409)

/-- The tiered level computation inlined in `get_compliance`
(main.py lines 312-320). -/
def levelOf (events_count : Nat) : String :=
  if events_count ≥ 200 then "gold"
  else if events_count ≥ 50 then "silver"
  else if events_count ≥ 10 then "bronze"
  else "bronze"

/-- `GET /v1/compliance/(app_id)` handler (main.py lines 287-349). -/
def get_compliance (s : BrokerState) (app_id : String) (detailed : Bool) :
    Except Nat ComplianceReport :=
  match dictLookup s.compliance_store app_id with
  | none => Except.error 404
  | some app_compliance =>
    let events_count := app_compliance.events_count
    let level := levelOf events_count
    let critical_violations := app_compliance.violations.filter (fun v => v.severity = "critical")
    let status := if critical_violations.isEmpty then "compliant" else "non-compliant"
    let violation_objects :=
      if detailed then
        app_compliance.violations.map
          (fun v => { type := v.type, severity := v.severity, timestamp := v.timestamp,
                      description := v.description : ComplianceViolation })
      else []
    Except.ok
      { app_id := app_id, compliance_level := level, status := status,
        last_audit := app_compliance.last_event, events_count := events_count,
        violations := violation_objects,
        certificate_url :=
          if status = "compliant" then
            some ("https://pinksync.org/certificates/" ++ app_id ++ "-" ++ level)
          else none }

/-! ## Operations absent from the source but required by the spec -/

/-- Modelled from the spec: `declare(app_id, capabilities, compliance_level,
version)` of the Capability Registry (spec section 4.4) — the write operation
populating `capabilities_store` is missing from the source tree (only the
read side, `list_capabilities`, exists); per the spec it replaces any prior
declaration for the same `app_id` (last-write-wins). -/
def declare_capability (s : BrokerState) (c : AppCapability) : BrokerState :=
  { s with capabilities_store :=
      (s.capabilities_store.filter (fun c' => c'.app_id ≠ c.app_id)) ++ [c] }

/-- Modelled from the spec: the out-of-band violation feed (spec sections 3
and 6) — an external auditor appends a Violation to an application's
violation list; no endpoint for it exists in the source tree.  It touches
only the `violations` list of an existing compliance entry. -/
def record_violation (s : BrokerState) (app_id : String) (v : Violation) : BrokerState :=
  match dictLookup s.compliance_store app_id with
  | none => s
  | some c =>
    { s with compliance_store :=
        dictInsert s.compliance_store app_id { c with violations := c.violations ++ [v] } }

/-- Modelled from the spec: `match(event) -> set of consumer_id` of the
Subscription Matcher (spec section 4.5) — no matcher exists in the source
tree.  A single subscription matches when the event intent is among its
`event_types` and, when a filter is present, every present filter field is
satisfied (empty-or-contains). -/
def filterSatisfied (f : SubscriptionFilter) (app_id intent level : String) : Bool :=
  (match f.app_ids with
   | none => true
   | some l => l.isEmpty || l.contains app_id) &&
  (match f.intents with
   | none => true
   | some l => l.isEmpty || l.contains intent) &&
  (match f.compliance_levels with
   | none => true
   | some l => l.isEmpty || l.contains level)

/-- Modelled from the spec: whether one stored subscription matches an event
with the given derived compliance level (spec section 4.5). -/
def subscriptionMatches (r : SubscriptionRecord) (app_id intent level : String) : Bool :=
  r.status = "active" &&
  r.subscription.event_types.contains intent &&
  (match r.subscription.filter with
   | none => true
   | some f => filterSatisfied f app_id intent level)

/-- The stored event count of an application, `0` when the application is
unknown. -/
def eventsCountOf (s : BrokerState) (app_id : String) : Nat :=
  match dictLookup s.compliance_store app_id with
  | none => 0
  | some c => c.events_count

/-- Modelled from the spec: the derived compliance level consulted by the
matcher — the tiered level of the current stored event count. -/
def derivedLevel (s : BrokerState) (app_id : String) : String :=
  levelOf (eventsCountOf s app_id)

/-- Modelled from the spec: the match set of an event, evaluated against the
pre-increment broker state (spec sections 4.5 and 8). -/
def matchEvent (s : BrokerState) (e : AccessibilityEvent) : List String :=
  (s.subscriptions_store.filter
    (fun r => subscriptionMatches r e.app_id e.intent (derivedLevel s e.app_id))).map
    (fun r => r.subscription.consumer_id)

/-! ## Derived notions used by the claims -/

/-- `events_for(app_id)`: the stored records of one application, in store
order. -/
def eventsFor (s : BrokerState) (app_id : String) : List EventRecord :=
  s.events_store.filter (fun r => r.event.app_id = app_id)

/-- The counter/store consistency invariant: every application's
`events_count` equals the number of its stored events. -/
def countInv (s : BrokerState) : Prop :=
  ∀ a : String, eventsCountOf s a = (eventsFor s a).length

/-- Run a sequence of accepted events (each with its generated id and clock
reading) through `accept_event`. -/
def runAccepts (s : BrokerState) : List (AccessibilityEvent × String × String) → BrokerState
  | [] => s
  | (e, event_id, now) :: rest => runAccepts (accept_event s e event_id now).1 rest

/-- The records a run of accepted events adds for one application, in
acceptance order. -/
def acceptedFor (l : List (AccessibilityEvent × String × String)) (a : String) :
    List EventRecord :=
  (l.filter (fun t => t.1.app_id = a)).map (fun t => mkEventRecord t.1 t.2.1 t.2.2)

/-- The stored violation list of an application (empty when unknown). -/
def violationsOf (s : BrokerState) (a : String) : List Violation :=
  match dictLookup s.compliance_store a with
  | none => []
  | some c => c.violations

/-- One capability query filter as the code applies it: absent (`None`) or
empty-string values are skipped (Python truthiness), any other value must
pass the test. -/
def passes (fl : Option String) (test : String → Bool) : Bool :=
  match fl with
  | none => true
  | some v => if v = "" then true else test v

/-- The conjunctive filter semantics `list_capabilities` implements. -/
def capFilterMatches (fa fc fi : Option String) (c : AppCapability) : Bool :=
  passes fa (fun v => c.app_id = v) &&
  passes fc (fun v => c.compliance_level = v) &&
  passes fi (fun v => c.capabilities.contains v)

/-- The report `get_compliance` returns for a present compliance entry (the
`Except.ok` branch of the handler, factored out for reuse in proofs). -/
def reportFor (a : String) (c : ComplianceEntry) (detailed : Bool) : ComplianceReport :=
  let level := levelOf c.events_count
  let status :=
    if (c.violations.filter (fun v => v.severity = "critical")).isEmpty then "compliant"
    else "non-compliant"
  { app_id := a, compliance_level := level, status := status,
    last_audit := c.last_event, events_count := c.events_count,
    violations :=
      if detailed then
        c.violations.map
          (fun v => { type := v.type, severity := v.severity, timestamp := v.timestamp,
                      description := v.description : ComplianceViolation })
      else [],
    certificate_url :=
      if status = "compliant" then
        some ("https://pinksync.org/certificates/" ++ a ++ "-" ++ level)
      else none }

/-! ## Concrete sample data for witnesses and counterexamples -/

/-- A well-formed sample event. -/
def sampleEvent : AccessibilityEvent :=
  { app_id := "app-one", user_id := none, intent := "visual_only",
    timestamp := "2025-12-20 18:00:00", metadata := [], compliance_level := none }

/-- A malformed sample event: its `app_id` is shorter than 3 characters. -/
def badEvent : AccessibilityEvent :=
  { app_id := "ab", user_id := none, intent := "visual_only",
    timestamp := "2025-12-20 18:00:00", metadata := [], compliance_level := none }

/-- A capability declaration for an application that never emitted an event. -/
def capOnlyDecl : AppCapability :=
  { app_id := "cap-only-app", capabilities := ["visual_only"],
    compliance_level := "gold", version := "1.0.0", registered_at := none }

/-- A declaration used in the capability-filter counterexample. -/
def capAbc : AppCapability :=
  { app_id := "abc", capabilities := ["visual_only"],
    compliance_level := "bronze", version := "1.0.0", registered_at := none }

/-- A broker state holding exactly one capability declaration. -/
def capFilterState : BrokerState :=
  { initialState with capabilities_store := [capAbc] }

/-- The gold-only subscription filter from the spec's filter-conjunction
property. -/
def goldOnlyFilter : SubscriptionFilter :=
  { app_ids := none, intents := none, compliance_levels := some ["gold"] }

/-- A compliance entry with nine counted events and no violations. -/
def entry9 : ComplianceEntry := { events_count := 9, violations := [], last_event := none }

/-- A broker state in which `app-one` has nine counted events. -/
def state9 : BrokerState :=
  { initialState with compliance_store := [("app-one", entry9)] }

/-- A critical violation. -/
def critViolation : Violation :=
  { type := "contrast", severity := "critical", timestamp := "t1", description := none }

/-- A compliance entry carrying one critical violation. -/
def entryCrit : ComplianceEntry :=
  { events_count := 3, violations := [critViolation], last_event := none }

/-- A broker state in which `app-one` carries a critical violation. -/
def stateCrit : BrokerState :=
  { initialState with compliance_store := [("app-one", entryCrit)] }

/-- A sample subscription request. -/
def sampleSubRequest : SubscriptionRequest :=
  { consumer_id := "consumer-1", event_types := ["visual_only"],
    webhook_url := none, filter := none }

/-- A stored sample subscription. -/
def sampleSubRecord : SubscriptionRecord :=
  { subscription_id := "sub-1", subscription := sampleSubRequest,
    created_at := "t0", status := "active" }

/-- A broker state holding exactly one subscription. -/
def subState : BrokerState :=
  { initialState with subscriptions_store := [sampleSubRecord] }

/-- A stored subscription for `visual_only` events restricted to gold
applications. -/
def goldVisualSubRecord : SubscriptionRecord :=
  { subscription_id := "sub-2",
    subscription := { consumer_id := "consumer-2", event_types := ["visual_only"],
                      webhook_url := none, filter := some goldOnlyFilter },
    created_at := "t0", status := "active" }

/-! ## Helper lemmas about the dict model -/

theorem dictLookup_insert_self (d : List (String × ComplianceEntry)) (k : String)
    (v : ComplianceEntry) : dictLookup (dictInsert d k v) k = some v := by
  induction d with
  | nil => simp [dictInsert, dictLookup]
  | cons hd tl ih =>
    obtain ⟨a, b⟩ := hd
    by_cases h : a = k
    · simp [dictInsert, dictLookup, h]
    · simp [dictInsert, dictLookup, h, ih]

theorem dictLookup_insert_ne (d : List (String × ComplianceEntry)) (k k' : String)
    (v : ComplianceEntry) (h : k ≠ k') :
    dictLookup (dictInsert d k v) k' = dictLookup d k' := by
  induction d with
  | nil => simp [dictInsert, dictLookup, h]
  | cons hd tl ih =>
    obtain ⟨a, b⟩ := hd
    by_cases h2 : a = k
    · subst h2; simp [dictInsert, dictLookup, h]
    · simp [dictInsert, dictLookup, h2, ih]

/-! ## Helper lemmas about `accept_event` and `runAccepts` -/

theorem events_store_accept (s : BrokerState) (e : AccessibilityEvent) (eid now : String) :
    (accept_event s e eid now).1.events_store = s.events_store ++ [mkEventRecord e eid now] := rfl

theorem eventsCountOf_accept_self (s : BrokerState) (e : AccessibilityEvent) (eid now : String) :
    eventsCountOf (accept_event s e eid now).1 e.app_id = eventsCountOf s e.app_id + 1 := by
  simp only [accept_event, eventsCountOf]
  rw [dictLookup_insert_self]
  cases h : dictLookup s.compliance_store e.app_id <;> simp [h]

theorem eventsCountOf_accept_ne (s : BrokerState) (e : AccessibilityEvent) (eid now a : String)
    (h : e.app_id ≠ a) :
    eventsCountOf (accept_event s e eid now).1 a = eventsCountOf s a := by
  simp only [accept_event, eventsCountOf]
  rw [dictLookup_insert_ne _ _ _ _ h]

theorem eventsFor_accept (s : BrokerState) (e : AccessibilityEvent) (eid now a : String) :
    eventsFor (accept_event s e eid now).1 a =
      eventsFor s a ++ if e.app_id = a then [mkEventRecord e eid now] else [] := by
  simp only [eventsFor]
  rw [events_store_accept, List.filter_append]
  congr 1
  by_cases h : e.app_id = a <;> simp [mkEventRecord, h]

theorem eventsFor_runAccepts (l : List (AccessibilityEvent × String × String)) :
    ∀ (s : BrokerState) (a : String),
      eventsFor (runAccepts s l) a = eventsFor s a ++ acceptedFor l a := by
  induction l with
  | nil => intro s a; simp [runAccepts, acceptedFor]
  | cons hd tl ih =>
    intro s a
    obtain ⟨e, eid, now⟩ := hd
    simp only [runAccepts]
    rw [ih, eventsFor_accept]
    by_cases h : e.app_id = a <;>
      simp [acceptedFor, List.filter_cons, h]

theorem eventsCountOf_runAccepts (l : List (AccessibilityEvent × String × String)) :
    ∀ (s : BrokerState) (a : String),
      eventsCountOf (runAccepts s l) a =
        eventsCountOf s a + (l.filter (fun t => t.1.app_id = a)).length := by
  induction l with
  | nil => intro s a; simp [runAccepts]
  | cons hd tl ih =>
    intro s a
    obtain ⟨e, eid, now⟩ := hd
    simp only [runAccepts]
    rw [ih]
    by_cases h : e.app_id = a
    · rw [← h, eventsCountOf_accept_self]
      simp [List.filter_cons, h]
      omega
    · rw [eventsCountOf_accept_ne _ _ _ _ _ h]
      simp [List.filter_cons, h]

theorem countInv_initial : countInv initialState := by
  intro a; rfl

theorem countInv_accept (s : BrokerState) (h : countInv s) (e : AccessibilityEvent)
    (eid now : String) : countInv (accept_event s e eid now).1 := by
  intro a
  by_cases h2 : e.app_id = a
  · rw [← h2, eventsCountOf_accept_self, eventsFor_accept]
    simp [h e.app_id]
  · rw [eventsCountOf_accept_ne _ _ _ _ _ h2, eventsFor_accept]
    simp [h2, h a]

theorem create_subscription_events (s : BrokerState) (sub : SubscriptionRequest)
    (sid now : String) :
    (create_subscription s sub sid now).1.events_store = s.events_store ∧
    (create_subscription s sub sid now).1.compliance_store = s.compliance_store := by
  unfold create_subscription
  by_cases h :
      (s.subscriptions_store.filter
        (fun r => r.subscription.consumer_id = sub.consumer_id)).isEmpty <;>
    simp [h]

theorem record_violation_events (s : BrokerState) (a : String) (v : Violation) :
    (record_violation s a v).events_store = s.events_store := by
  unfold record_violation
  cases dictLookup s.compliance_store a <;> rfl

theorem eventsCountOf_record_violation (s : BrokerState) (a : String) (v : Violation)
    (a' : String) : eventsCountOf (record_violation s a v) a' = eventsCountOf s a' := by
  unfold record_violation
  cases h : dictLookup s.compliance_store a with
  | none => rfl
  | some c =>
    simp only [eventsCountOf]
    by_cases h2 : a = a'
    · subst h2
      rw [dictLookup_insert_self, h]
    · rw [dictLookup_insert_ne _ _ _ _ h2]

/-! ## Helper lemmas about filtering and `get_compliance` -/

theorem filter_isEmpty_iff {α : Type} (l : List α) (p : α → Prop) [DecidablePred p] :
    (l.filter (fun a => decide (p a))).isEmpty = true ↔ ∀ a ∈ l, ¬ p a := by
  induction l with
  | nil => simp
  | cons hd tl ih => by_cases h : p hd <;> simp [List.filter_cons, h, ih]

theorem get_compliance_some (s : BrokerState) (a : String) (det : Bool) (c : ComplianceEntry)
    (h : dictLookup s.compliance_store a = some c) :
    get_compliance s a det = Except.ok (reportFor a c det) := by
  unfold get_compliance
  rw [h]
  rfl

theorem get_compliance_none (s : BrokerState) (a : String) (det : Bool)
    (h : dictLookup s.compliance_store a = none) :
    get_compliance s a det = Except.error 404 := by
  unfold get_compliance
  rw [h]

theorem reportFor_status (a : String) (c : ComplianceEntry) (det : Bool) :
    (reportFor a c det).status =
      if (c.violations.filter (fun v => v.severity = "critical")).isEmpty then "compliant"
      else "non-compliant" := rfl

theorem filter_step {α : Type} (fl : Option String) (p : String → α → Bool) (l : List α) :
    (if truthy fl = true then l.filter (p (fl.getD "")) else l) =
      l.filter (fun c => passes fl (fun v => p v c)) := by
  rcases fl with _ | v
  · simp [truthy, passes]
  · by_cases h : v = "" <;> simp [truthy, passes, h]

/-! ## Claim theorems -/

/-- C1: the compliance level `get_compliance` reports is a function of the
stored `events_count` alone, with inclusive thresholds: gold at 200 events or
more, silver from 50 to 199, and bronze below 50 (including counts below 10,
so counts 9 and 10 are both bronze, 50 yields silver and 200 yields gold). -/
theorem C1_compliance_level_thresholds :
    (∀ n : Nat, levelOf n =
      if n ≥ 200 then "gold" else if n ≥ 50 then "silver" else "bronze") ∧
    (∀ (s : BrokerState) (a : String) (det : Bool) (r : ComplianceReport),
      get_compliance s a det = Except.ok r →
        r.compliance_level = levelOf (eventsCountOf s a) ∧
        r.events_count = eventsCountOf s a) ∧
    levelOf 9 = "bronze" ∧ levelOf 10 = "bronze" ∧ levelOf 50 = "silver" ∧ levelOf 200 = "gold" := by
  refine ⟨?_, ?_, by decide, by decide, by decide, by decide⟩
  · intro n
    unfold levelOf
    split_ifs <;> rfl
  · intro s a det r hok
    cases h : dictLookup s.compliance_store a with
    | none => rw [get_compliance_none s a det h] at hok; exact absurd hok (by simp)
    | some c =>
      rw [get_compliance_some s a det c h] at hok
      have hr : r = reportFor a c det := by
        injection hok with h2
        exact h2.symm
      subst hr
      unfold eventsCountOf
      rw [h]
      exact ⟨rfl, rfl⟩

/-- C1 witness: in a state where `app-one` has nine counted events, the
report's level is the tiered level of the stored count (which is bronze). -/
theorem C1_compliance_level_thresholds_witness :
    ((reportFor "app-one" entry9 false).compliance_level =
      levelOf (eventsCountOf state9 "app-one") ∧
     (reportFor "app-one" entry9 false).events_count = eventsCountOf state9 "app-one") ∧
    levelOf (eventsCountOf state9 "app-one") = "bronze" :=
  ⟨C1_compliance_level_thresholds.2.1 state9 "app-one" false
    (reportFor "app-one" entry9 false) rfl, by decide⟩

/-- C2: every accepted event appends exactly one record to `events_store` and
bumps the owning application's `events_count` by one; a run of accepted events
grows an application's event list by exactly its own records, in acceptance
order, with earlier records untouched (the store only ever grows by appending
on the right); and the invariant `events_count = number of stored events` holds
initially and is preserved by every operation. -/
theorem C2_append_only_invariant :
    (∀ (s : BrokerState) (e : AccessibilityEvent) (eid now : String),
      (accept_event s e eid now).1.events_store = s.events_store ++ [mkEventRecord e eid now]) ∧
    (∀ (s : BrokerState) (e : AccessibilityEvent) (eid now : String),
      eventsCountOf (accept_event s e eid now).1 e.app_id = eventsCountOf s e.app_id + 1) ∧
    (∀ (l : List (AccessibilityEvent × String × String)) (s : BrokerState) (a : String),
      eventsFor (runAccepts s l) a = eventsFor s a ++ acceptedFor l a) ∧
    (∀ (l : List (AccessibilityEvent × String × String)) (a : String),
      (eventsFor (runAccepts initialState l) a).length =
        (l.filter (fun t => t.1.app_id = a)).length) ∧
    countInv initialState ∧
    (∀ s : BrokerState, countInv s →
      (∀ (e : AccessibilityEvent) (eid now : String),
        countInv (accept_event s e eid now).1) ∧
      (∀ (e : AccessibilityEvent) (eid now : String),
        countInv (submit_event s e eid now).1) ∧
      (∀ (sub : SubscriptionRequest) (sid now : String),
        countInv (create_subscription s sub sid now).1) ∧
      (∀ c : AppCapability, countInv (declare_capability s c)) ∧
      (∀ (a : String) (v : Violation), countInv (record_violation s a v))) := by
  refine ⟨events_store_accept, eventsCountOf_accept_self, ?_, ?_, countInv_initial, ?_⟩
  · intro l s a
    exact eventsFor_runAccepts l s a
  · intro l a
    rw [eventsFor_runAccepts]
    simp [eventsFor, initialState, acceptedFor]
  · intro s h
    refine ⟨fun e eid now => countInv_accept s h e eid now, ?_, ?_, ?_, ?_⟩
    · intro e eid now
      unfold submit_event
      by_cases hv : validEvent e = true
      · simpa [hv] using countInv_accept s h e eid now
      · simpa [hv] using h
    · intro sub sid now a
      have h1 := create_subscription_events s sub sid now
      unfold countInv eventsCountOf eventsFor at *
      rw [h1.1, h1.2]
      exact h a
    · intro c a
      exact h a
    · intro a v a'
      rw [eventsCountOf_record_violation]
      unfold eventsFor
      rw [record_violation_events]
      exact h a'

/-- C2 witness: accepting one concrete event in the empty initial state
preserves the count/store invariant, and all other operations do too. -/
theorem C2_append_only_invariant_witness :
    countInv (accept_event initialState sampleEvent "e1" "t1").1 ∧
    countInv (create_subscription initialState sampleSubRequest "s1" "t1").1 ∧
    countInv (declare_capability initialState capAbc) ∧
    countInv (record_violation initialState "app-one" critViolation) :=
  ⟨(C2_append_only_invariant.2.2.2.2.2 initialState (fun _ => rfl)).1 sampleEvent "e1" "t1",
   (C2_append_only_invariant.2.2.2.2.2 initialState (fun _ => rfl)).2.2.1 sampleSubRequest "s1" "t1",
   (C2_append_only_invariant.2.2.2.2.2 initialState (fun _ => rfl)).2.2.2.1 capAbc,
   (C2_append_only_invariant.2.2.2.2.2 initialState (fun _ => rfl)).2.2.2.2 "app-one" critViolation⟩

/-- C3: `create_subscription` fails with HTTP 409 (DuplicateSubscription) if
and only if some stored subscription already has the requested `consumer_id`;
on that failure the whole state — in particular the existing subscription's
`subscription_id`, `created_at` and `status` — is unchanged, and on success the
only change to the subscription store is appending the one new record. -/
theorem C3_duplicate_subscription_conflict :
    ∀ (s : BrokerState) (sub : SubscriptionRequest) (sid now : String),
      ((create_subscription s sub sid now).2 = Except.error 409 ↔
        ∃ r ∈ s.subscriptions_store, r.subscription.consumer_id = sub.consumer_id) ∧
      ((∃ r ∈ s.subscriptions_store, r.subscription.consumer_id = sub.consumer_id) →
        (create_subscription s sub sid now).1 = s) ∧
      (¬ (∃ r ∈ s.subscriptions_store, r.subscription.consumer_id = sub.consumer_id) →
        (create_subscription s sub sid now).1.subscriptions_store =
          s.subscriptions_store ++
            [{ subscription_id := sid, subscription := sub,
               created_at := now, status := "active" }]) := by
  intro s sub sid now
  have hkey :
      (s.subscriptions_store.filter
        (fun r => decide (r.subscription.consumer_id = sub.consumer_id))).isEmpty = true ↔
      ∀ r ∈ s.subscriptions_store, ¬ r.subscription.consumer_id = sub.consumer_id :=
    filter_isEmpty_iff s.subscriptions_store (fun r => r.subscription.consumer_id = sub.consumer_id)
  by_cases h :
      (s.subscriptions_store.filter
        (fun r => decide (r.subscription.consumer_id = sub.consumer_id))).isEmpty = true
  · have hno : ¬ ∃ r ∈ s.subscriptions_store, r.subscription.consumer_id = sub.consumer_id := by
      rw [hkey] at h
      push_neg
      exact h
    refine ⟨?_, fun hex => absurd hex hno, fun _ => ?_⟩
    · simp only [create_subscription, h]
      simp [hno]
    · simp only [create_subscription, h]
      simp
  · have hyes : ∃ r ∈ s.subscriptions_store, r.subscription.consumer_id = sub.consumer_id := by
      rw [← not_forall_not]
      intro hall
      exact h (hkey.mpr (by simpa using hall))
    refine ⟨?_, fun _ => ?_, fun hno => absurd hyes hno⟩
    · simp only [create_subscription, h]
      simp [hyes]
    · simp only [create_subscription, h]
      simp

/-- C3 witness: with one stored subscription for `consumer-1`, a second
request for `consumer-1` fails with 409 and leaves the state unchanged, and a
request for a fresh consumer appends exactly one record. -/
theorem C3_duplicate_subscription_conflict_witness :
    (create_subscription subState sampleSubRequest "s2" "t2").2 = Except.error 409 ∧
    (create_subscription subState sampleSubRequest "s2" "t2").1 = subState :=
  ⟨(C3_duplicate_subscription_conflict subState sampleSubRequest "s2" "t2").1.mpr
      ⟨sampleSubRecord, by decide, by decide⟩,
   (C3_duplicate_subscription_conflict subState sampleSubRequest "s2" "t2").2.1
      ⟨sampleSubRecord, by decide, by decide⟩⟩

/-- C4: for an application with a compliance entry, the report's status is
`non-compliant` exactly when some recorded violation has severity `critical`,
and `compliant` otherwise; the status is a function of the violation list
alone, independent of `events_count` and of the compliance level. -/
theorem C4_status_iff_critical_violation :
    ∀ (s : BrokerState) (a : String) (det : Bool) (r : ComplianceReport),
      get_compliance s a det = Except.ok r →
        (r.status = "non-compliant" ↔ ∃ v ∈ violationsOf s a, v.severity = "critical") ∧
        (r.status = "compliant" ↔ ¬ ∃ v ∈ violationsOf s a, v.severity = "critical") ∧
        (∀ (s' : BrokerState) (a' : String) (det' : Bool) (r' : ComplianceReport),
          get_compliance s' a' det' = Except.ok r' →
          violationsOf s a = violationsOf s' a' → r.status = r'.status) := by
  have status_eq :
      ∀ (s : BrokerState) (a : String) (det : Bool) (r : ComplianceReport),
        get_compliance s a det = Except.ok r →
          r.status = if (violationsOf s a).filter (fun v => v.severity = "critical") |>.isEmpty
            then "compliant" else "non-compliant" := by
    intro s a det r hok
    cases h : dictLookup s.compliance_store a with
    | none => rw [get_compliance_none s a det h] at hok; exact absurd hok (by simp)
    | some c =>
      rw [get_compliance_some s a det c h] at hok
      have hr : r = reportFor a c det := by
        injection hok with h2
        exact h2.symm
      subst hr
      unfold violationsOf
      rw [h]
      exact reportFor_status a c det
  intro s a det r hok
  have hs := status_eq s a det r hok
  have hcrit := filter_isEmpty_iff (violationsOf s a) (fun v => v.severity = "critical")
  constructor
  · rw [hs]
    by_cases h : ((violationsOf s a).filter (fun v => decide (v.severity = "critical"))).isEmpty = true
    · rw [if_pos h]
      constructor
      · intro hfalse; exact absurd hfalse (by decide)
      · rintro ⟨v, hv, hcv⟩
        exact absurd hcv (hcrit.mp h v hv)
    · rw [if_neg h]
      refine ⟨fun _ => ?_, fun _ => rfl⟩
      by_contra hno
      push_neg at hno
      exact h (hcrit.mpr (by simpa using hno))
  constructor
  · rw [hs]
    by_cases h : ((violationsOf s a).filter (fun v => decide (v.severity = "critical"))).isEmpty = true
    · rw [if_pos h]
      refine ⟨fun _ => ?_, fun _ => rfl⟩
      rintro ⟨v, hv, hcv⟩
      exact absurd hcv (hcrit.mp h v hv)
    · rw [if_neg h]
      constructor
      · intro hfalse; exact absurd hfalse (by decide)
      · intro hno
        exfalso
        apply h
        apply hcrit.mpr
        intro v hv
        exact fun hcv => hno ⟨v, hv, hcv⟩
  · intro s' a' det' r' hok' hvs
    rw [hs, status_eq s' a' det' r' hok', hvs]

/-- C4 witness: a state carrying one critical violation for `app-one` reports
`non-compliant`, and a state with no violations reports `compliant`. -/
theorem C4_status_iff_critical_violation_witness :
    (reportFor "app-one" entryCrit true).status = "non-compliant" ∧
    (reportFor "app-one" entry9 false).status = "compliant" :=
  ⟨(C4_status_iff_critical_violation stateCrit "app-one" true
      (reportFor "app-one" entryCrit true) rfl).1.mpr
      ⟨critViolation, by decide, by decide⟩,
   (C4_status_iff_critical_violation state9 "app-one" false
      (reportFor "app-one" entry9 false) rfl).2.1.mpr (by decide)⟩

/-- C5: the signature of every accepted event — both the one returned in the
response and the one stored in the event record — equals
`sign event_id app_id intent timestamp`, a pure function of exactly those four
inputs and of nothing else in the broker state or clock; and for a typical
concrete input, changing any single one of the four inputs changes the
output. -/
theorem C5_signature_deterministic :
    (∀ (s : BrokerState) (e : AccessibilityEvent) (eid now : String),
      (accept_event s e eid now).2.signature = sign eid e.app_id e.intent e.timestamp) ∧
    (∀ (e : AccessibilityEvent) (eid now : String),
      (mkEventRecord e eid now).signature = sign eid e.app_id e.intent e.timestamp) ∧
    sign "e1" "app-one" "visual_only" "2025-12-20 18:00:00" ≠
      sign "e2" "app-one" "visual_only" "2025-12-20 18:00:00" ∧
    sign "e1" "app-one" "visual_only" "2025-12-20 18:00:00" ≠
      sign "e1" "app-two" "visual_only" "2025-12-20 18:00:00" ∧
    sign "e1" "app-one" "visual_only" "2025-12-20 18:00:00" ≠
      sign "e1" "app-one" "captions_mandatory" "2025-12-20 18:00:00" ∧
    sign "e1" "app-one" "visual_only" "2025-12-20 18:00:00" ≠
      sign "e1" "app-one" "visual_only" "2025-12-20 18:00:01" :=
  ⟨fun _ _ _ _ => rfl, fun _ _ _ => rfl, by decide, by decide, by decide, by decide⟩

/-- C6 counterexample: an application that has a capability declaration but
no recorded events still gets the 404 not-found error — `get_compliance`
consults only `compliance_store` and ignores `capabilities_store`, so the
claim that a capability declaration prevents the not-found error is false. -/
theorem C6_capability_declaration_counterexample :
    (∃ c ∈ (declare_capability initialState capOnlyDecl).capabilities_store,
      c.app_id = "cap-only-app") ∧
    get_compliance (declare_capability initialState capOnlyDecl) "cap-only-app" false =
      Except.error 404 :=
  ⟨⟨capOnlyDecl, by decide, by decide⟩, rfl⟩

/-- C6 amended: `get_compliance` fails with the 404 not-found error exactly
when the queried `app_id` has no compliance entry — that is, no recorded
events — regardless of any capability declaration; an application with event
history never gets the not-found error, and an unknown application always gets
the error rather than a silently defaulted zero report. -/
theorem C6_unknown_application_amended :
    ∀ (s : BrokerState) (a : String) (det : Bool),
      (get_compliance s a det = Except.error 404 ↔ dictLookup s.compliance_store a = none) ∧
      (countInv s → eventsFor s a ≠ [] → get_compliance s a det ≠ Except.error 404) := by
  intro s a det
  have hiff : get_compliance s a det = Except.error 404 ↔
      dictLookup s.compliance_store a = none := by
    cases h : dictLookup s.compliance_store a with
    | none => simp [get_compliance_none s a det h]
    | some c => simp [get_compliance_some s a det c h]
  refine ⟨hiff, ?_⟩
  intro hinv hne hcontra
  have hnone := hiff.mp hcontra
  have h0 : eventsCountOf s a = 0 := by
    unfold eventsCountOf
    rw [hnone]
  have hlen := hinv a
  rw [h0] at hlen
  exact hne (List.length_eq_zero.mp hlen.symm)

/-- C6 amended witness: after accepting one event for `app-one`, querying
`app-one` does not produce the not-found error. -/
theorem C6_unknown_application_amended_witness :
    get_compliance (accept_event initialState sampleEvent "e1" "t1").1 "app-one" false ≠
      Except.error 404 :=
  (C6_unknown_application_amended (accept_event initialState sampleEvent "e1" "t1").1
      "app-one" false).2
    (countInv_accept initialState (fun _ => rfl) sampleEvent "e1" "t1")
    (by simp [eventsFor, accept_event, initialState, mkEventRecord, sampleEvent])

/-- C7: an event whose `app_id` fails the charset/length constraints or whose
`intent` is not one of the eight enumerated values is rejected with HTTP 422
before any state mutation: the returned state is exactly the input state (so
nothing is appended, no counter is created or incremented) and the result
carries no signature, only the error. -/
theorem C7_invalid_event_rejected :
    ∀ (s : BrokerState) (e : AccessibilityEvent) (eid now : String),
      (¬ (matchesIdent e.app_id = true ∧ 3 ≤ e.app_id.length ∧ e.app_id.length ≤ 64) ∨
        intentValues.contains e.intent = false) →
        submit_event s e eid now = (s, Except.error 422) := by
  intro s e eid now hbad
  have hv : ¬ validEvent e = true := by
    intro hv
    unfold validEvent at hv
    simp only [Bool.and_eq_true, decide_eq_true_eq] at hv
    rcases hbad with hbad | hbad
    · exact hbad ⟨by tauto, by tauto, by tauto⟩
    · have hc : intentValues.contains e.intent = true := by tauto
      rw [hc] at hbad
      exact absurd hbad (by decide)
  unfold submit_event
  rw [if_neg hv]

/-- C7 witness: a concrete event with a two-character `app_id` is rejected
with 422 and the initial state is returned unchanged. -/
theorem C7_invalid_event_rejected_witness :
    submit_event initialState badEvent "e1" "t1" = (initialState, Except.error 422) :=
  C7_invalid_event_rejected initialState badEvent "e1" "t1" (Or.inl (by decide))

/-- C8 counterexample: with one stored declaration (for `abc`) and a supplied
`app_id` filter whose value is the empty string, `list_capabilities` returns
the declaration even though its `app_id` differs from the supplied filter
value — Python truthiness skips empty-string filters, so the returned set is
not the set of declarations matching every supplied filter by equality. -/
theorem C8_capability_filters_counterexample :
    (list_capabilities capFilterState (some "") none none).capabilities = [capAbc] ∧
    ¬ capAbc.app_id = "" ∧
    (list_capabilities capFilterState (some "") none none).capabilities ≠
      capFilterState.capabilities_store.filter (fun c => c.app_id = "") :=
  ⟨rfl, by decide, by decide⟩

/-- C8 amended: `list_capabilities` returns exactly the declarations passing
every supplied *non-empty* filter (absent or empty-string filters are skipped,
by Python truthiness), conjunctively — `app_id` and `compliance_level` by
equality and `intent` by membership in the declaration's capability set — and
the returned `total` equals the number of returned declarations. -/
theorem C8_capability_filters_amended :
    ∀ (s : BrokerState) (fa fc fi : Option String),
      (list_capabilities s fa fc fi).capabilities =
        s.capabilities_store.filter (capFilterMatches fa fc fi) ∧
      (list_capabilities s fa fc fi).total =
        ((list_capabilities s fa fc fi).capabilities).length ∧
      (∀ c : AppCapability,
        c ∈ (list_capabilities s fa fc fi).capabilities ↔
          c ∈ s.capabilities_store ∧ capFilterMatches fa fc fi c = true) := by
  intro s fa fc fi
  have hmain : (list_capabilities s fa fc fi).capabilities =
      s.capabilities_store.filter (capFilterMatches fa fc fi) := by
    unfold list_capabilities
    dsimp only
    rw [filter_step fa (fun v (c : AppCapability) => decide (c.app_id = v)) s.capabilities_store]
    rw [filter_step fc (fun v (c : AppCapability) => decide (c.compliance_level = v))
        (s.capabilities_store.filter (fun c => passes fa fun v => decide (c.app_id = v)))]
    rw [filter_step fi (fun v (c : AppCapability) => c.capabilities.contains v)
        ((s.capabilities_store.filter (fun c => passes fa fun v => decide (c.app_id = v))).filter
          (fun c => passes fc fun v => decide (c.compliance_level = v)))]
    rw [List.filter_filter, List.filter_filter]
    refine List.filter_congr ?_
    intro c _
    unfold capFilterMatches
    cases h1 : passes fa (fun v => decide (c.app_id = v)) <;>
      cases h2 : passes fc (fun v => decide (c.compliance_level = v)) <;>
        cases h3 : passes fi (fun v => c.capabilities.contains v) <;>
          simp [h1, h2, h3]
  refine ⟨hmain, rfl, ?_⟩
  intro c
  rw [hmain]
  simp [List.mem_filter]

/-- C9: the (spec-modelled) subscription matcher includes a stored consumer
in the match set exactly when some stored active subscription of that
consumer lists the event's intent among its `event_types` and, when a filter
is present, satisfies every present filter field conjunctively
(empty-or-contains on `app_ids`, `intents` and the derived compliance level);
in particular a subscription for `visual_only` events filtered to gold
applications never matches a `captions_mandatory` event at any level, nor a
`visual_only` event from a bronze application. -/
theorem C9_subscription_matching :
    (∀ (s : BrokerState) (e : AccessibilityEvent) (cid : String),
      cid ∈ matchEvent s e ↔
        ∃ r ∈ s.subscriptions_store, r.subscription.consumer_id = cid ∧
          subscriptionMatches r e.app_id e.intent (derivedLevel s e.app_id) = true) ∧
    (∀ (r : SubscriptionRecord) (a i lv : String),
      subscriptionMatches r a i lv = true ↔
        (r.status = "active" ∧ r.subscription.event_types.contains i = true ∧
          ∀ f, r.subscription.filter = some f → filterSatisfied f a i lv = true)) ∧
    (∀ (r : SubscriptionRecord) (a lv : String),
      r.subscription.event_types = ["visual_only"] →
      r.subscription.filter = some goldOnlyFilter →
        subscriptionMatches r a "captions_mandatory" lv = false) ∧
    (∀ (r : SubscriptionRecord) (a : String),
      r.subscription.event_types = ["visual_only"] →
      r.subscription.filter = some goldOnlyFilter →
        subscriptionMatches r a "visual_only" "bronze" = false) := by
  refine ⟨?_, ?_, ?_, ?_⟩
  · intro s e cid
    unfold matchEvent
    simp only [List.mem_map, List.mem_filter]
    constructor
    · rintro ⟨r, ⟨hr, hm⟩, hc⟩
      exact ⟨r, hr, hc, hm⟩
    · rintro ⟨r, hr, hc, hm⟩
      exact ⟨r, ⟨hr, hm⟩, hc⟩
  · intro r a i lv
    cases hf : r.subscription.filter with
    | none => simp [subscriptionMatches, hf, and_assoc]
    | some f => simp [subscriptionMatches, hf, and_assoc]
  · intro r a lv het hf
    have hc : (["visual_only"] : List String).contains "captions_mandatory" = false := by decide
    unfold subscriptionMatches
    rw [het, hf, hc]
    simp
  · intro r a het hf
    unfold subscriptionMatches
    rw [het, hf]
    simp [filterSatisfied, goldOnlyFilter]

/-- C9 witness: the concrete gold-filtered `visual_only` subscription matches
neither a `captions_mandatory` event from a gold application nor a
`visual_only` event from a bronze application. -/
theorem C9_subscription_matching_witness :
    subscriptionMatches goldVisualSubRecord "app-one" "captions_mandatory" "gold" = false ∧
    subscriptionMatches goldVisualSubRecord "app-one" "visual_only" "bronze" = false :=
  ⟨C9_subscription_matching.2.2.1 goldVisualSubRecord "app-one" "gold" rfl rfl,
   C9_subscription_matching.2.2.2 goldVisualSubRecord "app-one" rfl rfl⟩

/-- C10: for an application with a compliance entry, the report with
`detailed = false` (the query default) carries an empty violations list while
the report with `detailed = true` carries every recorded violation; both
reports carry the same status, which is computed from all recorded
violations; and the certificate URL is present exactly when the status is
`compliant`. -/
theorem C10_detailed_flag :
    ∀ (s : BrokerState) (a : String) (c : ComplianceEntry),
      dictLookup s.compliance_store a = some c →
        get_compliance s a false = Except.ok (reportFor a c false) ∧
        get_compliance s a true = Except.ok (reportFor a c true) ∧
        (reportFor a c false).violations = [] ∧
        (reportFor a c true).violations = c.violations.map
          (fun v => { type := v.type, severity := v.severity, timestamp := v.timestamp,
                      description := v.description : ComplianceViolation }) ∧
        (reportFor a c false).status = (reportFor a c true).status ∧
        ((reportFor a c false).status = "non-compliant" ↔
          ∃ v ∈ c.violations, v.severity = "critical") ∧
        ((reportFor a c false).certificate_url ≠ none ↔
          (reportFor a c false).status = "compliant") ∧
        ((reportFor a c true).certificate_url ≠ none ↔
          (reportFor a c true).status = "compliant") := by
  intro s a c h
  have hcrit := filter_isEmpty_iff c.violations (fun v => v.severity = "critical")
  refine ⟨get_compliance_some s a false c h, get_compliance_some s a true c h,
          rfl, rfl, rfl, ?_, ?_, ?_⟩
  · by_cases hv : (c.violations.filter (fun v => decide (v.severity = "critical"))).isEmpty = true
    · constructor
      · intro hfalse
        rw [reportFor_status, if_pos hv] at hfalse
        exact absurd hfalse (by decide)
      · rintro ⟨v, hvv, hcv⟩
        exact absurd hcv (hcrit.mp hv v hvv)
    · constructor
      · intro _
        by_contra hno
        push_neg at hno
        exact hv (hcrit.mpr (by simpa using hno))
      · intro _
        rw [reportFor_status, if_neg hv]
  · by_cases hv : (c.violations.filter (fun v => decide (v.severity = "critical"))).isEmpty = true <;>
      simp [reportFor, hv]
  · by_cases hv : (c.violations.filter (fun v => decide (v.severity = "critical"))).isEmpty = true <;>
      simp [reportFor, hv]

/-- C10 witness: for the state carrying one critical violation for `app-one`,
the default report hides the violation list while the detailed one shows it,
and no certificate URL is issued. -/
theorem C10_detailed_flag_witness :
    (reportFor "app-one" entryCrit false).violations = [] ∧
    (reportFor "app-one" entryCrit true).violations = entryCrit.violations.map
      (fun v => { type := v.type, severity := v.severity, timestamp := v.timestamp,
                  description := v.description : ComplianceViolation }) ∧
    ((reportFor "app-one" entryCrit false).certificate_url ≠ none ↔
      (reportFor "app-one" entryCrit false).status = "compliant") :=
  ⟨(C10_detailed_flag stateCrit "app-one" entryCrit rfl).2.2.1,
   (C10_detailed_flag stateCrit "app-one" entryCrit rfl).2.2.2.1,
   (C10_detailed_flag stateCrit "app-one" entryCrit rfl).2.2.2.2.2.2.1⟩

end PinkSync
